import Mathlib

/-!
Verification development for the TgBot_BinanceFuture repository.

The repository is a Telegram bot front end for Binance futures accounts:
`futures.py` builds signed REST requests, `sql_config.py` wraps a MySQL
table of credential bindings, `b_future.py` is the bot (bind flow, balance
and order reports), and `subscribe_user_data.py` streams order events.

This file gives a shallow embedding of the parts of that code that the
claims below are about, and proves (or refutes) each claim.  Python
machine values are modelled as follows: `str` as `String`, byte strings as
`List Nat` (each element `< 256`), 32-bit words as `Nat` reduced
`% 2 ^ 32`, `float` time values as `Rat`, the MySQL table as a
`List Row` with the declared `UNIQUE (b_api_key)` constraint enforced by
the insert model, and raised exceptions / fallible indexing as `Option`
or an explicit result type.
-/

/-! ## Byte-level utilities (Python `str.encode('utf-8')`, hex digests) -/

/-- UTF-8 encoding of a single code point, as a list of byte values. -/
def utf8Char (n : Nat) : List Nat :=
  if n < 0x80 then [n]
  else if n < 0x800 then
    [0xC0 ||| (n >>> 6), 0x80 ||| (n &&& 0x3F)]
  else if n < 0x10000 then
    [0xE0 ||| (n >>> 12), 0x80 ||| ((n >>> 6) &&& 0x3F), 0x80 ||| (n &&& 0x3F)]
  else
    [0xF0 ||| (n >>> 18), 0x80 ||| ((n >>> 12) &&& 0x3F),
     0x80 ||| ((n >>> 6) &&& 0x3F), 0x80 ||| (n &&& 0x3F)]

/-- `s.encode('utf-8')` : the UTF-8 bytes of a string. -/
def strBytes (s : String) : List Nat :=
  (s.data.map (fun c => utf8Char c.toNat)).flatten

/-- Lowercase hex digit, used by `hexdigest`. -/
def hexLowerDigit (n : Nat) : Char :=
  "0123456789abcdef".data.getD n '0'

/-- Uppercase hex digit, used by `urllib.parse.quote_plus` percent escapes. -/
def hexUpperDigit (n : Nat) : Char :=
  "0123456789ABCDEF".data.getD n '0'

/-- `bytes.hex()` / `.hexdigest()` : lowercase hex rendering of bytes. -/
def hexdigest (bs : List Nat) : String :=
  ⟨(bs.map (fun b => [hexLowerDigit (b / 16), hexLowerDigit (b % 16)])).flatten⟩

/-! ## SHA-256 and HMAC (Python `hashlib.sha256`, `hmac.new`)

`futures.py` calls `hmac.new(SECRET.encode(), qs.encode(), hashlib.sha256)`;
the two library primitives are modelled here in full (FIPS 180-4 / RFC 2104)
so that `hashing` below is executable. -/

/-- `2 ^ 32`, the modulus for 32-bit words. -/
def w32 : Nat := 4294967296

/-- Right rotation of a 32-bit word (operand assumed `< 2 ^ 32`). -/
def rotr32 (n x : Nat) : Nat :=
  ((x >>> n) ||| (x <<< (32 - n))) % w32

/-- Bitwise complement of a 32-bit word. -/
def not32 (x : Nat) : Nat := x ^^^ 0xFFFFFFFF

/-- The 64 SHA-256 round constants (FIPS 180-4 §4.2.2, here written in
decimal). -/
def sha256K : List Nat :=
  [1116352408, 1899447441, 3049323471, 3921009573, 961987163,
   1508970993, 2453635748, 2870763221, 3624381080, 310598401,
   607225278, 1426881987, 1925078388, 2162078206, 2614888103,
   3248222580, 3835390401, 4022224774, 264347078, 604807628,
   770255983, 1249150122, 1555081692, 1996064986, 2554220882,
   2821834349, 2952996808, 3210313671, 3336571891, 3584528711,
   113926993, 338241895, 666307205, 773529912, 1294757372,
   1396182291, 1695183700, 1986661051, 2177026350, 2456956037,
   2730485921, 2820302411, 3259730800, 3345764771, 3516065817,
   3600352804, 4094571909, 275423344, 430227734, 506948616,
   659060556, 883997877, 958139571, 1322822218, 1537002063,
   1747873779, 1955562222, 2024104815, 2227730452, 2361852424,
   2428436474, 2756734187, 3204031479, 3329325298]

/-- The SHA-256 initial hash value (FIPS 180-4 §5.3.3, in decimal). -/
def sha256H0 : List Nat :=
  [1779033703, 3144134277, 1013904242, 2773480762, 1359893119,
   2600822924, 528734635, 1541459225]

/-- Big-endian 8-byte rendering of a length in bits. -/
def be64 (n : Nat) : List Nat :=
  (List.range 8).map (fun i => (n >>> (8 * (7 - i))) % 256)

/-- SHA-256 padding: append `0x80`, zero bytes, and the 64-bit bit length. -/
def sha256Pad (msg : List Nat) : List Nat :=
  let L := msg.length
  let r := (L + 1) % 64
  let k := if r ≤ 56 then 56 - r else 64 + 56 - r
  msg ++ [0x80] ++ List.replicate k 0 ++ be64 (8 * L)

/-- Split a byte list into 64-byte chunks. -/
def chunks64 (l : List Nat) : List (List Nat) :=
  if h : l = [] then []
  else l.take 64 :: chunks64 (l.drop 64)
termination_by l.length
decreasing_by
  have hp : 0 < l.length := List.length_pos.mpr h
  simp only [List.length_drop]
  omega

/-- The 16 initial message-schedule words of a 64-byte chunk (big endian). -/
def chunkWords (c : List Nat) : List Nat :=
  (List.range 16).map (fun i =>
    c.getD (4 * i) 0 * 16777216 + c.getD (4 * i + 1) 0 * 65536 +
    c.getD (4 * i + 2) 0 * 256 + c.getD (4 * i + 3) 0)

/-- Message-schedule extension to 64 words. -/
def sha256Schedule (ws : List Nat) : List Nat :=
  (List.range 48).foldl (fun acc i =>
    let g := fun j => acc.getD j 0
    let s0 := rotr32 7 (g (i + 1)) ^^^ rotr32 18 (g (i + 1)) ^^^ (g (i + 1) >>> 3)
    let s1 := rotr32 17 (g (i + 14)) ^^^ rotr32 19 (g (i + 14)) ^^^ (g (i + 14) >>> 10)
    acc ++ [(g i + s0 + g (i + 9) + s1) % w32]) ws

/-- One SHA-256 compression step; the state is `[a, b, c, d, e, f, g, h]`. -/
def sha256Round (st : List Nat) (kw : Nat × Nat) : List Nat :=
  let a := st.getD 0 0
  let b := st.getD 1 0
  let c := st.getD 2 0
  let d := st.getD 3 0
  let e := st.getD 4 0
  let f := st.getD 5 0
  let g := st.getD 6 0
  let h := st.getD 7 0
  let S1 := rotr32 6 e ^^^ rotr32 11 e ^^^ rotr32 25 e
  let ch := (e &&& f) ^^^ (not32 e &&& g)
  let temp1 := (h + S1 + ch + kw.1 + kw.2) % w32
  let S0 := rotr32 2 a ^^^ rotr32 13 a ^^^ rotr32 22 a
  let maj := (a &&& b) ^^^ (a &&& c) ^^^ (b &&& c)
  let temp2 := (S0 + maj) % w32
  [(temp1 + temp2) % w32, a, b, c, (d + temp1) % w32, e, f, g]

/-- Compress one 64-byte chunk into the running hash value. -/
def sha256Compress (hv : List Nat) (chunk : List Nat) : List Nat :=
  let ws := sha256Schedule (chunkWords chunk)
  let fin := (sha256K.zip ws).foldl sha256Round hv
  (hv.zip fin).map (fun p => (p.1 + p.2) % w32)

/-- SHA-256 of a byte list, as a 32-byte digest. -/
def sha256 (msg : List Nat) : List Nat :=
  let hv := (chunks64 (sha256Pad msg)).foldl sha256Compress sha256H0
  (hv.map (fun word => (List.range 4).map
    (fun i => (word >>> (8 * (3 - i))) % 256))).flatten

/-- HMAC-SHA256 (RFC 2104) over byte lists, as used by `hmac.new(...)`. -/
def hmacSha256 (key msg : List Nat) : List Nat :=
  let k0 := if 64 < key.length then sha256 key else key
  let kp := k0 ++ List.replicate (64 - k0.length) 0
  let opad := kp.map (fun b => b ^^^ 0x5c)
  let ipad := kp.map (fun b => b ^^^ 0x36)
  sha256 (opad ++ sha256 (ipad ++ msg))

/-! ## `futures.py` : the signed HTTP client

`KEY` and `SECRET` come from the (out-of-repo) `settings` module; they are
passed as parameters here.  `get_timestamp()` reads the wall clock, so the
millisecond timestamp is likewise a parameter `ts`. -/

/-- `urllib.parse.quote_plus` on one UTF-8 byte: space becomes `+`, the
always-safe bytes (ASCII letters, digits, `_`, `.`, `-`, `~`) stay, and
everything else becomes an uppercase percent escape. -/
def quotePlusByte (b : Nat) : List Char :=
  if b == 32 then ['+']
  else if (65 ≤ b && b ≤ 90) || (97 ≤ b && b ≤ 122) || (48 ≤ b && b ≤ 57) ||
          b == 95 || b == 46 || b == 45 || b == 126 then
    [Char.ofNat b]
  else ['%', hexUpperDigit (b / 16), hexUpperDigit (b % 16)]

/-- `urllib.parse.quote_plus` of a string. -/
def quotePlus (s : String) : String :=
  ⟨((strBytes s).map quotePlusByte).flatten⟩

/-- `urllib.parse.urlencode` of a flat parameter mapping (the default
`quote_via=quote_plus` form used by `futures.py`). -/
def urlencode (payload : List (String × String)) : String :=
  String.intercalate "&" (payload.map (fun kv => quotePlus kv.1 ++ "=" ++ quotePlus kv.2))

/-- Python `str.replace(pat, repl)`: leftmost non-overlapping replacement
of every occurrence, over character lists. -/
def replaceList (pat repl : List Char) : List Char → List Char
  | [] => []
  | c :: rest =>
    if h : pat ≠ [] ∧ pat.isPrefixOf (c :: rest) then
      repl ++ replaceList pat repl (rest.drop (pat.length - 1))
    else
      c :: replaceList pat repl rest
termination_by l => l.length
decreasing_by
  · simp only [List.length_drop, List.length_cons]
    omega
  · simp

/-- Python `str.replace(pat, repl)` on strings. -/
def pyReplace (pat repl s : String) : String :=
  ⟨replaceList pat.data repl.data s.data⟩

/-- `futures.py` line 17: HMAC-SHA256 hex digest of a query string, keyed
by the account secret. -/
def hashing (SECRET query_string : String) : String :=
  hexdigest (hmacSha256 (strBytes SECRET) (strBytes query_string))

/-- `futures.py` line 11. -/
def BASE_URL : String := "https://fapi.binance.com"

/-- The headers `dispatch_request` installs on the session
(`futures.py` lines 27-30). -/
def dispatch_headers (KEY : String) : List (String × String) :=
  [("Content-Type", "application/json;charset=utf-8"), ("X-MBX-APIKEY", KEY)]

/-- The request an issued call would put on the wire: method, full URL,
and the session headers. -/
structure HttpRequest where
  method : String
  url : String
  headers : List (String × String)
deriving DecidableEq, Repr

/-- The four method names `dispatch_request` recognises. -/
def httpMethods : List String := ["GET", "DELETE", "PUT", "POST"]

/-- `futures.py` lines 25-36: pick the session call for a method name.
For any other name the Python `.get` falls back to the *string* `'GET'`,
which is not callable, so the subsequent call raises `TypeError`; that
fallback is modelled as `none`. -/
def dispatch_request (KEY http_method : String) : Option (String → HttpRequest) :=
  if httpMethods.contains http_method then
    some (fun url => ⟨http_method, url, dispatch_headers KEY⟩)
  else none

/-- The query string `send_signed_request` signs (`futures.py` lines
41-47): URL-encode the payload, rewrite `%27` to `%22`, then append the
millisecond timestamp (alone when the payload encoded to nothing). -/
def signedQueryString (payload : List (String × String)) (ts : Nat) : String :=
  let query_string := pyReplace "%27" "%22" (urlencode payload)
  if query_string ≠ "" then query_string ++ "&timestamp=" ++ toString ts
  else "timestamp=" ++ toString ts

/-- `futures.py` lines 40-52: build the signed request.  The result is the
request handed to the session call; `none` models the `TypeError` raised
on an unrecognised method name.  (Line 53, `return response.json()`, is
modelled separately by `send_signed_request_result`.) -/
def send_signed_request (KEY SECRET http_method url_path : String)
    (payload : List (String × String)) (ts : Nat) : Option HttpRequest :=
  match dispatch_request KEY http_method with
  | none => none
  | some call =>
    let query_string := signedQueryString payload ts
    some (call (BASE_URL ++ url_path ++ "?" ++ query_string ++ "&signature=" ++
                hashing SECRET query_string))

/-! ## Python string helpers used by `bind_b_api` -/

/-- The whitespace characters Python `str.strip()` removes (ASCII range). -/
def pyIsSpace (c : Char) : Bool :=
  c == ' ' || c == '\t' || c == '\n' || c == '\r' ||
  c == Char.ofNat 11 || c == Char.ofNat 12

/-- Python `str.strip()`. -/
def pyStrip (s : String) : String :=
  ⟨((s.data.dropWhile pyIsSpace).reverse.dropWhile pyIsSpace).reverse⟩

/-- Python `.replace(" ", "")` : drop every space character. -/
def removeSpaces (s : String) : String :=
  ⟨s.data.filter (fun c => !(c == ' '))⟩

/-- Python `str.split('\n')` on character lists: split at every newline,
keeping empty pieces (so the result is always non-empty). -/
def splitNlList : List Char → List (List Char)
  | [] => [[]]
  | c :: rest =>
    let r := splitNlList rest
    if c == '\n' then [] :: r
    else
      match r with
      | [] => [[c]]
      | piece :: more => (c :: piece) :: more

/-- Python `str.split('\n')` on strings. -/
def pySplitNl (s : String) : List String :=
  (splitNlList s.data).map (fun l => ⟨l⟩)

/-! ## `sql_config.py` and the `binance_tg` table

`create_table` (lines 16-26) declares the row shape and the
`UNIQUE (b_api_key)` constraint; the table is modelled as a `List Row` and
the MySQL engine's enforcement of the constraint is part of the
`insert_data` model (a duplicate-key `INSERT` raises, which the wrapper
turns into `False`).  The string-building `select_data` wrapper is
modelled by the two concrete queries the bot issues. -/

/-- One row of the `binance_tg` table, with the columns the bot writes. -/
structure Row where
  tg_id : Nat
  api_lable : String
  b_api_key : String
  b_secret_key : String
  tg_token : String
deriving DecidableEq, Repr

/-- `sql_config.py` lines 51-69 executing the bot's `INSERT`: commit the
new row and return `True`, unless the `UNIQUE (b_api_key)` constraint
rejects it, in which case roll back and return `False`. -/
def insert_data (r : Row) (t : List Row) : Bool × List Row :=
  if t.any (fun r0 => r0.b_api_key == r.b_api_key) then (false, t)
  else (true, t ++ [r])

/-- `select * from binance_tg where b_api_key='k'`
(issued by `bind_b_api`, `b_future.py` line 97). -/
def selectByKey (key : String) (t : List Row) : List Row :=
  t.filter (fun r => r.b_api_key == key)

/-- `select ... from binance_tg where tg_id=u`
(issued by `b_balance` / `b_orders`, `b_future.py` lines 129 and 186). -/
def selectByTgId (uid : Nat) (t : List Row) : List Row :=
  t.filter (fun r => r.tg_id == uid)

/-! ## `b_future.py` : bot state and the bind flow -/

/-- The mutable state the bind flow touches: the process-wide
`bind_enable` flag (`b_future.py` line 20) and the credential table. -/
structure BotState where
  bind_enable : Bool
  table : List Row
deriving DecidableEq, Repr

/-- `tg_bind_api` (`b_future.py` lines 64-78): the `/bind` handler.  The
issuing user's id is accepted (it is in `update.message.from_user`) but —
the per-user lookup being commented out — the handler only sets the
global flag and replies with the prompt. -/
def tg_bind_api (user_id : Nat) (s : BotState) : BotState × List String :=
  ({ s with bind_enable := true }, ["请输入相关API！"])

/-- The gate at `b_future.py` lines 85-87: whether a free-text message
from `sender` is interpreted as bind input.  The code reads only the
process-wide flag, so `sender` is unused. -/
def captureDecision (sender : Nat) (s : BotState) : Bool :=
  s.bind_enable

/-- `bind_b_api` (`b_future.py` lines 81-120): the catch-all text handler.
Returns the new state and the replies sent, or `none` when the Python
code raises `IndexError` (the subscripts `api_info_list[1]` in the lookup
query and `api_info_list[2]` in the insert statement are unguarded: the
guard on line 94 re-checks `len(api_info)` — the string — instead of
`len(api_info_list)`). -/
def bind_b_api (teltoken : String) (user_id : Nat) (text : String)
    (s : BotState) : Option (BotState × List String) :=
  if !s.bind_enable then some (s, [])
  else
    let api_info := removeSpaces (pyStrip text)
    if api_info.length < 128 then some (s, [])
    else
      let api_info_list := pySplitNl api_info
      if api_info.length < 3 then some (s, [])
      else
        match api_info_list.get? 1 with
        | none => none
        | some key =>
          let results := selectByKey key s.table
          if !results.isEmpty then some (s, ["此API已经被绑定！"])
          else
            match api_info_list.get? 0, api_info_list.get? 2 with
            | some lable, some secret =>
              let row : Row := ⟨user_id, lable, key, secret, teltoken⟩
              let res := insert_data row s.table
              if res.1 then
                some (⟨false, res.2⟩,
                      ["绑定成功。", "账户：" ++ key ++ "，订阅了订单推送！"])
              else some (s, ["绑定失败，请重试。"])
            | _, _ => none

/-- The state reached by a text message, ignoring the replies. -/
def bindStep (teltoken : String) (user_id : Nat) (text : String)
    (s : BotState) : Option BotState :=
  (bind_b_api teltoken user_id text s).map Prod.fst

/-- States reachable from the initial state (flag down, table empty, as
after `create_table`) by the bind operations: `/bind` commands and
free-text messages. -/
inductive Reachable (teltoken : String) : BotState → Prop where
  | init : Reachable teltoken ⟨false, []⟩
  | bind (u : Nat) {s : BotState} :
      Reachable teltoken s → Reachable teltoken (tg_bind_api u s).1
  | msg (u : Nat) (txt : String) {s s' : BotState} :
      Reachable teltoken s → bindStep teltoken u txt s = some s' →
      Reachable teltoken s'

/-! ## Responses, exceptions, and the callers' failure handling -/

/-- A JSON value, as returned by `response.json()`. -/
inductive Json where
  | null
  | bool (b : Bool)
  | num (n : Int)
  | str (s : String)
  | arr (xs : List Json)
  | obj (kvs : List (String × Json))

/-- Python truthiness of a JSON value: `None`, `False`, `0`, `""`, `[]`
and `{}` are falsy. -/
def Json.falsy : Json → Bool
  | .null => true
  | .bool b => !b
  | .num n => n == 0
  | .str s => s == ""
  | .arr xs => xs.isEmpty
  | .obj kvs => kvs.isEmpty

/-- The outcome of running a piece of Python code: a returned value, or a
raised exception carrying its message. -/
inductive PyResult (α : Type) where
  | ok (val : α)
  | exn (err : String)

/-- `futures.py` lines 52-53: hand the built request to the session call
and return `response.json()`.  The HTTP layer (network plus body parse)
is the function `http`; its outcome — the parsed body, or a raised
exception — is returned as is.  There is no try/except and no inspection
of the body: the function has no error branch of its own. -/
def send_signed_request_result (KEY SECRET http_method url_path : String)
    (payload : List (String × String)) (ts : Nat)
    (http : HttpRequest → PyResult Json) : PyResult Json :=
  match send_signed_request KEY SECRET http_method url_path payload ts with
  | none => .exn "TypeError"
  | some req => http req

/-! ## Notification send (`tg_bot_send_text`), two variants -/

/-- The Telegram GET url both variants build. -/
def sendMessageUrl (tg_token : String) (user_id : Nat) (message : String) : String :=
  "https://api.telegram.org/bot" ++ tg_token ++ "/sendMessage?chat_id=" ++
    toString user_id ++ "&text=" ++ message

/-- `b_future.py` lines 23-30: issue the GET and return `response.json()`.
There is no try/except, so whatever the HTTP layer does — including
raising — is passed through to the caller. -/
def tg_bot_send_text (teltoken message : String) (user_id : Nat)
    (http_get : String → PyResult Json) : PyResult Json :=
  http_get (sendMessageUrl teltoken user_id message)

/-- `subscribe_user_data.py` lines 24-35: the same GET, but wrapped in
`try/except Exception`, returning `{}` when anything is raised. -/
def tg_bot_send_text_sub (send_message : String) (user_id : Nat)
    (tg_token : String) (http_get : String → PyResult Json) : PyResult Json :=
  match http_get (sendMessageUrl tg_token user_id send_message) with
  | .ok j => .ok j
  | .exn _ => .ok (Json.obj [])

/-! ## `b_orders` : the trade-history report -/

/-- One record returned by `/fapi/v1/userTrades`, reduced to the field
the filter reads: `info['time']`, the exchange timestamp in
milliseconds.  (The remaining fields only feed the formatted message
text, which every kept trade produces exactly once.) -/
structure Trade where
  time : Nat
deriving DecidableEq, Repr

/-- The per-trade loop of `b_orders` (`b_future.py` lines 230-296): a
trade older than `60*60` seconds is skipped (`continue`); every other
trade is pushed as one message and sets `have_order`.  `now` is the
`time()` value in (float) seconds. -/
def b_ordersTradeLoop (now : Rat) : List Trade → List Trade
  | [] => []
  | info :: rest =>
    if now - (info.time : Rat) / 1000 > 60 * 60 then b_ordersTradeLoop now rest
    else info :: b_ordersTradeLoop now rest

/-- `b_future.py` line 299. -/
def noRecentReply : String := "最近暂无订单，请稍后重试。"

/-- `b_future.py` line 301. -/
def doneReply : String := "订单查询完成。"

/-- The trade-report part of `b_orders` (`b_future.py` lines 222-301):
given the trade-history list of each traded symbol (a falsy — empty —
response contributes nothing, line 224's `continue`), the trades pushed
to the user and the closing reply, which is the no-recent-orders text
exactly when nothing was pushed (`have_order` stayed `False`). -/
def b_ordersReport (now : Rat) (histories : List (List Trade)) :
    List Trade × String :=
  let pushed := (histories.map (b_ordersTradeLoop now)).flatten
  (pushed, if pushed.isEmpty then noRecentReply else doneReply)

/-! ## Claims -/

/-- C1: for every call to the signed-request operation with a recognised
HTTP method, an endpoint path, and a flat set of query parameters, the
issued request is built by URL-encoding the parameters (with the `%27`
to `%22` rewrite), appending a millisecond timestamp field, signing the
resulting query string with HMAC-SHA256 keyed by the account secret,
appending that hex digest as a `signature` parameter, and carrying the
API key in the `X-MBX-APIKEY` header. -/
theorem C1_signed_request_build (KEY SECRET http_method url_path : String)
    (payload : List (String × String)) (ts : Nat)
    (hm : httpMethods.contains http_method = true) :
    send_signed_request KEY SECRET http_method url_path payload ts =
      some ⟨http_method,
            BASE_URL ++ url_path ++ "?" ++ signedQueryString payload ts ++
              "&signature=" ++ hashing SECRET (signedQueryString payload ts),
            dispatch_headers KEY⟩
    ∧ signedQueryString payload ts =
        (if pyReplace "%27" "%22" (urlencode payload) ≠ "" then
          pyReplace "%27" "%22" (urlencode payload) ++ "&timestamp=" ++ toString ts
         else "timestamp=" ++ toString ts)
    ∧ hashing SECRET (signedQueryString payload ts) =
        hexdigest (hmacSha256 (strBytes SECRET) (strBytes (signedQueryString payload ts)))
    ∧ ("X-MBX-APIKEY", KEY) ∈ dispatch_headers KEY := by
  have hm' : http_method ∈ httpMethods := by simpa using hm
  refine ⟨?_, rfl, rfl, ?_⟩
  · simp [send_signed_request, dispatch_request, hm']
  · simp [dispatch_headers]

/-- Witness for C1 at a concrete method, path, payload and timestamp. -/
theorem C1_signed_request_build_witness :
    send_signed_request "PK" "SK" "GET" "/fapi/v1/userTrades"
        [("symbol", "BTCUSDT")] 1700000000000 =
      some ⟨"GET",
            BASE_URL ++ "/fapi/v1/userTrades" ++ "?" ++
              signedQueryString [("symbol", "BTCUSDT")] 1700000000000 ++
              "&signature=" ++
              hashing "SK" (signedQueryString [("symbol", "BTCUSDT")] 1700000000000),
            dispatch_headers "PK"⟩ :=
  (C1_signed_request_build "PK" "SK" "GET" "/fapi/v1/userTrades"
    [("symbol", "BTCUSDT")] 1700000000000 (by decide)).1

/-- C4: the signed-request operation returns exactly the HTTP layer's
outcome — the parsed response body, whatever it is — with no error branch
or structured error of its own; failure can reach the caller only as an
empty/falsy body, and `b_orders` reacts to such a falsy trade-history
result by skipping the symbol (contributing nothing to the report). -/
theorem C4_result_is_parsed_body (KEY SECRET http_method url_path : String)
    (payload : List (String × String)) (ts : Nat)
    (http : HttpRequest → PyResult Json)
    (hm : httpMethods.contains http_method = true) :
    send_signed_request_result KEY SECRET http_method url_path payload ts http =
      http ⟨http_method,
            BASE_URL ++ url_path ++ "?" ++ signedQueryString payload ts ++
              "&signature=" ++ hashing SECRET (signedQueryString payload ts),
            dispatch_headers KEY⟩
    ∧ ∀ (now : Rat) (histories : List (List Trade)),
        (b_ordersReport now ([] :: histories)).1 = (b_ordersReport now histories).1 := by
  have hm' : http_method ∈ httpMethods := by simpa using hm
  constructor
  · simp [send_signed_request_result, send_signed_request, dispatch_request, hm']
  · intro now histories
    simp [b_ordersReport, b_ordersTradeLoop]

/-- Witness for C4: a concrete call whose HTTP layer returns `null`. -/
theorem C4_result_is_parsed_body_witness :
    send_signed_request_result "PK" "SK" "GET" "/fapi/v2/account" [] 5
        (fun _ => .ok Json.null) = .ok Json.null :=
  (C4_result_is_parsed_body "PK" "SK" "GET" "/fapi/v2/account" [] 5
    (fun _ => .ok Json.null) (by decide)).1

/-- C5 counterexample: the `b_future.py` notification send does NOT
swallow failures — when the HTTP GET raises, the exception propagates to
the caller instead of an empty result being returned. -/
theorem C5_counterexample :
    tg_bot_send_text "T" "hello" 1 (fun _ => .exn "ConnectionError") =
      .exn "ConnectionError"
    ∧ tg_bot_send_text "T" "hello" 1 (fun _ => .exn "ConnectionError") ≠
        .ok (Json.obj []) :=
  ⟨rfl, fun h => by simp [tg_bot_send_text] at h⟩

/-- C5 (amended): only the `subscribe_user_data.py` variant of the
notification send swallows failures and returns an empty object; the
`b_future.py` variant simply returns the HTTP layer's outcome, so a
raised exception propagates to its caller. -/
theorem C5_amended_only_sub_swallows (message tg_token : String) (user_id : Nat)
    (http_get : String → PyResult Json) (e : String)
    (hfail : http_get (sendMessageUrl tg_token user_id message) = .exn e) :
    tg_bot_send_text_sub message user_id tg_token http_get = .ok (Json.obj [])
    ∧ tg_bot_send_text tg_token message user_id http_get =
        http_get (sendMessageUrl tg_token user_id message) := by
  constructor
  · simp [tg_bot_send_text_sub, hfail]
  · rfl

/-- Witness for the amended C5 at a concrete failing HTTP layer. -/
theorem C5_amended_only_sub_swallows_witness :
    tg_bot_send_text_sub "hi" 1 "T" (fun _ => .exn "E") = .ok (Json.obj []) :=
  (C5_amended_only_sub_swallows "hi" "T" 1 (fun _ => .exn "E") "E" rfl).1

/-- C7: whether a free-text message is interpreted as bind input depends
only on the process-wide `bind_enable` flag — the decision is the same
for any two senders, the state `/bind` leaves behind is the same
whichever user issued it (so two runs differing only in that user agree
on the capture decision), and when the flag is down the text handler
ignores the message entirely, for every sender. -/
theorem C7_capture_depends_only_on_flag (s : BotState)
    (u1 u2 sender sender' : Nat) (teltoken txt : String) :
    captureDecision sender s = captureDecision sender' s
    ∧ (tg_bind_api u1 s).1 = (tg_bind_api u2 s).1
    ∧ captureDecision sender (tg_bind_api u1 s).1 =
        captureDecision sender' (tg_bind_api u2 s).1
    ∧ (captureDecision sender s = false →
        bind_b_api teltoken sender txt s = some (s, [])) := by
  refine ⟨rfl, rfl, rfl, fun h => ?_⟩
  simp only [captureDecision] at h
  simp [bind_b_api, h]

/-- Witness for C7: with the flag down a concrete message is ignored. -/
theorem C7_capture_depends_only_on_flag_witness :
    bind_b_api "T" 5 "whatever" ⟨false, []⟩ = some (⟨false, []⟩, []) :=
  (C7_capture_depends_only_on_flag ⟨false, []⟩ 1 2 5 6 "T" "whatever").2.2.2 rfl

/-- C10: while bind mode is enabled, a free-text message whose content
after stripping and removing spaces is shorter than 128 characters is
silently ignored: no reply, no insert, and the flag is unchanged. -/
theorem C10_short_message_ignored (teltoken : String) (sender : Nat)
    (txt : String) (s : BotState) (hflag : s.bind_enable = true)
    (hshort : (removeSpaces (pyStrip txt)).length < 128) :
    bind_b_api teltoken sender txt s = some (s, []) := by
  simp [bind_b_api, hflag, hshort]

/-- Witness for C10 at a concrete short message. -/
theorem C10_short_message_ignored_witness :
    bind_b_api "T" 7 "shrt" ⟨true, []⟩ = some (⟨true, []⟩, []) :=
  C10_short_message_ignored "T" 7 "shrt" ⟨true, []⟩ rfl (by decide)

/-- Helper: a text-message step either leaves the table unchanged or
appends a single row whose API key differs from every stored key. -/
theorem bindStep_table {teltoken : String} {u : Nat} {txt : String}
    {s s' : BotState} (h : bindStep teltoken u txt s = some s') :
    s'.table = s.table ∨
    ∃ r : Row, s'.table = s.table ++ [r] ∧
      ∀ r0 ∈ s.table, r0.b_api_key ≠ r.b_api_key := by
  simp only [bindStep] at h
  cases h1 : s.bind_enable with
  | false =>
    simp [bind_b_api, h1] at h
    exact Or.inl (by rw [← h])
  | true =>
    by_cases h2 : (removeSpaces (pyStrip txt)).length < 128
    · simp [bind_b_api, h1, h2] at h
      exact Or.inl (by rw [← h])
    · by_cases h3 : (removeSpaces (pyStrip txt)).length < 3
      · simp [bind_b_api, h1, h2, h3] at h
        exact Or.inl (by rw [← h])
      · cases hget1 : (pySplitNl (removeSpaces (pyStrip txt)))[1]? with
        | none => simp [bind_b_api, h1, h2, h3, hget1] at h
        | some key =>
          by_cases h4 : selectByKey key s.table = []
          · cases hget0 : (pySplitNl (removeSpaces (pyStrip txt)))[0]? with
            | none => simp [bind_b_api, h1, h2, h3, hget1, h4, hget0] at h
            | some lable =>
              cases hget2 : (pySplitNl (removeSpaces (pyStrip txt)))[2]? with
              | none => simp [bind_b_api, h1, h2, h3, hget1, h4, hget0, hget2] at h
              | some secret =>
                by_cases h5 : ∃ x ∈ s.table, x.b_api_key = key
                · simp [bind_b_api, insert_data, h1, h2, h3, hget1, h4,
                        hget0, hget2, h5] at h
                  exact Or.inl (by rw [← h])
                · simp [bind_b_api, insert_data, h1, h2, h3, hget1, h4,
                        hget0, hget2, h5] at h
                  right
                  refine ⟨⟨u, lable, key, secret, teltoken⟩, by rw [← h], ?_⟩
                  intro r0 hr0 hk
                  exact h5 ⟨r0, hr0, hk⟩
          · simp [bind_b_api, h1, h2, h3, hget1, h4] at h
            exact Or.inl (by rw [← h])

/-- The uniqueness invariant: no two rows share an API key. -/
def keysUnique (t : List Row) : Prop :=
  t.Pairwise (fun r1 r2 => r1.b_api_key ≠ r2.b_api_key)

/-- C2: in every state reachable by the bind operations from the empty
table, no two binding rows share the same exchange API key — the handler
refuses to insert when a row with the submitted key exists, and the
`UNIQUE (b_api_key)` constraint makes a duplicate insert fail. -/
theorem C2_api_key_unique (teltoken : String) (s : BotState)
    (h : Reachable teltoken s) : keysUnique s.table := by
  induction h with
  | init => exact List.Pairwise.nil
  | bind u hs ih => exact ih
  | msg u txt hs hstep ih =>
    rcases bindStep_table hstep with heq | ⟨r, heq, hfresh⟩
    · rwa [keysUnique, heq]
    · rw [keysUnique, heq]
      refine List.pairwise_append.mpr ⟨ih, List.pairwise_singleton _ _, ?_⟩
      intro a ha b hb
      rw [List.mem_singleton] at hb
      subst hb
      exact hfresh a ha

/-- Concrete credentials for reachable-state witnesses. -/
def keyA : String := ⟨List.replicate 64 'a'⟩

def keyB : String := ⟨List.replicate 64 'b'⟩

def secA : String := ⟨List.replicate 64 's'⟩

def msgA : String := "lblA\n" ++ keyA ++ "\n" ++ secA

def msgB : String := "lblB\n" ++ keyB ++ "\n" ++ secA

def rowA : Row := ⟨1, "lblA", keyA, secA, "T"⟩

def rowB : Row := ⟨1, "lblB", keyB, secA, "T"⟩

/-- The state after user 1 completes the bind flow twice, with two
different API keys. -/
def twoRowState : BotState := ⟨false, [rowA, rowB]⟩

set_option maxRecDepth 10000 in
/-- Helper: `twoRowState` is reachable: user 1 runs `/bind` and sends
`msgA`, then runs `/bind` again and sends `msgB`. -/
theorem twoRowState_reachable : Reachable "T" twoRowState := by
  have h1 : bindStep "T" 1 msgA (tg_bind_api 1 ⟨false, []⟩).1 =
      some ⟨false, [rowA]⟩ := by decide
  have h2 : bindStep "T" 1 msgB (tg_bind_api 1 ⟨false, [rowA]⟩).1 =
      some twoRowState := by decide
  exact Reachable.msg 1 msgB
    (Reachable.bind 1 (Reachable.msg 1 msgA (Reachable.bind 1 Reachable.init) h1)) h2

/-- Witness for C2 at a concrete reachable two-row state. -/
theorem C2_api_key_unique_witness : keysUnique twoRowState.table :=
  C2_api_key_unique "T" twoRowState twoRowState_reachable

set_option maxRecDepth 10000 in
/-- C6 counterexample: a reachable state holding two distinct binding
rows for the same chat-platform user id (user 1 bound two different API
keys), on which the binding lookup returns two rows rather than zero or
one. -/
theorem C6_counterexample : Reachable "T" twoRowState
    ∧ (selectByTgId 1 twoRowState.table).length = 2
    ∧ rowA.tg_id = rowB.tg_id ∧ rowA ≠ rowB :=
  ⟨twoRowState_reachable, by decide, rfl, by decide⟩

/-- C6 (amended): for every user id the binding lookup returns exactly
the stored rows whose `tg_id` equals that id — zero, one, or more — and a
reachable state with two rows for one user exists, since only the API
key, not the user id, is unique. -/
theorem C6_amended_lookup (uid : Nat) (t : List Row) (r : Row) :
    (r ∈ selectByTgId uid t ↔ r ∈ t ∧ r.tg_id = uid)
    ∧ ∃ s : BotState, Reachable "T" s ∧ 2 ≤ (selectByTgId 1 s.table).length := by
  constructor
  · simp [selectByTgId]
  · exact ⟨twoRowState, twoRowState_reachable, by decide⟩

/-- Witness for the amended C6 at a concrete table. -/
theorem C6_amended_lookup_witness : rowA ∈ selectByTgId 1 [rowA] :=
  (C6_amended_lookup 1 [rowA] rowA).1.mpr ⟨by decide, by decide⟩

/-- The C8 failing input: 128 non-space characters with no newline. -/
def noNewlineMsg : String := ⟨List.replicate 128 'a'⟩

set_option maxRecDepth 10000 in
/-- C8: with bind mode enabled, the 128-character no-newline message
passes the handler's length guards (the guard on line 94 re-checks the
string length, not the field count), yet its newline split has a single
field, and the handler crashes with an `IndexError` (modelled `none`) at
`api_info_list[1]` — an out-of-bounds access the claim says cannot
happen. -/
theorem C8_index_error :
    128 ≤ (removeSpaces (pyStrip noNewlineMsg)).length
    ∧ (pySplitNl (removeSpaces (pyStrip noNewlineMsg))).length = 1
    ∧ bind_b_api "T" 1 noNewlineMsg ⟨true, []⟩ = none :=
  ⟨by decide, by decide, by decide⟩

/-- C3: binding is a two-step flow — `/bind` raises the bind-mode flag,
and a subsequent free-text message passing the guards is parsed as three
newline-separated fields label, key, secret and inserted as a new row
carrying the sending user's id and the bot token, with the success
replies sent and the flag lowered. -/
theorem C3_two_step_bind_flow (teltoken : String) (cmdUser msgUser : Nat)
    (s0 s : BotState) (txt lable key secret : String) (rest : List String)
    (hflag : s.bind_enable = true)
    (hlen : 128 ≤ (removeSpaces (pyStrip txt)).length)
    (hsplit : pySplitNl (removeSpaces (pyStrip txt)) = lable :: key :: secret :: rest)
    (hfresh : ∀ r ∈ s.table, r.b_api_key ≠ key) :
    (tg_bind_api cmdUser s0).1.bind_enable = true
    ∧ bind_b_api teltoken msgUser txt s =
        some (⟨false, s.table ++ [⟨msgUser, lable, key, secret, teltoken⟩]⟩,
              ["绑定成功。", "账户：" ++ key ++ "，订阅了订单推送！"]) := by
  refine ⟨rfl, ?_⟩
  have h2 : ¬(removeSpaces (pyStrip txt)).length < 128 := by omega
  have h3 : ¬(removeSpaces (pyStrip txt)).length < 3 := by omega
  have h4 : selectByKey key s.table = [] := by
    rw [selectByKey, List.filter_eq_nil_iff]
    intro r hr
    simp [hfresh r hr]
  have h5 : ¬∃ x ∈ s.table, x.b_api_key = key := by
    rintro ⟨x, hx, hke⟩
    exact hfresh x hx hke
  simp [bind_b_api, insert_data, hflag, h2, h3, hsplit, h4, h5]

set_option maxRecDepth 10000 in
/-- Witness for C3 at a concrete credentials message. -/
theorem C3_two_step_bind_flow_witness :
    bind_b_api "T" 1 msgA ⟨true, []⟩ =
      some (⟨false, [⟨1, "lblA", keyA, secA, "T"⟩]⟩,
            ["绑定成功。", "账户：" ++ keyA ++ "，订阅了订单推送！"]) :=
  (C3_two_step_bind_flow "T" 9 1 ⟨false, []⟩ ⟨true, []⟩ msgA "lblA" keyA secA []
    rfl (by decide) (by decide) (by decide)).2

/-- Helper: the per-trade loop keeps exactly the recent trades. -/
theorem b_ordersTradeLoop_eq_filter (now : Rat) (l : List Trade) :
    b_ordersTradeLoop now l =
      l.filter (fun info => decide (now - (info.time : Rat) / 1000 ≤ 60 * 60)) := by
  induction l with
  | nil => rfl
  | cons a t ih =>
    rw [b_ordersTradeLoop, List.filter_cons]
    by_cases hc : now - (a.time : Rat) / 1000 > 60 * 60
    · rw [if_pos hc, ih, if_neg]
      simpa using not_le.mpr hc
    · rw [if_neg hc, ih, if_pos]
      simpa using not_lt.mp hc

/-- C9: the `/orders` report contains exactly the trades whose exchange
timestamp lies within the last `60*60` seconds of the current time —
every older trade returned by the trade-history endpoint is skipped —
and when no trade passes the filter the closing reply is the
no-recent-orders text. -/
theorem C9_recent_trade_filter (now : Rat) (histories : List (List Trade))
    (info : Trade) :
    (info ∈ (b_ordersReport now histories).1 ↔
      ∃ h ∈ histories, info ∈ h ∧ now - (info.time : Rat) / 1000 ≤ 60 * 60)
    ∧ ((∀ h ∈ histories, ∀ t ∈ h, ¬(now - (t.time : Rat) / 1000 ≤ 60 * 60)) →
        (b_ordersReport now histories).2 = noRecentReply) := by
  constructor
  · simp only [b_ordersReport, List.mem_flatten, List.mem_map]
    constructor
    · rintro ⟨l, ⟨h, hh, rfl⟩, hmem⟩
      rw [b_ordersTradeLoop_eq_filter] at hmem
      rcases List.mem_filter.mp hmem with ⟨hmem, hcond⟩
      exact ⟨h, hh, hmem, by simpa using hcond⟩
    · rintro ⟨h, hh, hmem, hcond⟩
      refine ⟨b_ordersTradeLoop now h, ⟨h, hh, rfl⟩, ?_⟩
      rw [b_ordersTradeLoop_eq_filter]
      exact List.mem_filter.mpr ⟨hmem, by simpa using hcond⟩
  · intro hall
    have hempty : ∀ h ∈ histories, b_ordersTradeLoop now h = [] := by
      intro h hh
      rw [b_ordersTradeLoop_eq_filter, List.filter_eq_nil_iff]
      intro t ht
      simpa using hall h hh t ht
    have : (histories.map (b_ordersTradeLoop now)).flatten = [] := by
      rw [List.flatten_eq_nil_iff]
      intro l hl
      rcases List.mem_map.mp hl with ⟨h, hh, rfl⟩
      exact hempty h hh
    simp [b_ordersReport, this]

/-- Witness for C9: a trade exactly 3600 seconds old is reported. -/
theorem C9_recent_trade_filter_witness :
    (⟨400000⟩ : Trade) ∈ (b_ordersReport 4000 [[⟨400000⟩]]).1 :=
  (C9_recent_trade_filter 4000 [[⟨400000⟩]] ⟨400000⟩).1.mpr
    ⟨[⟨400000⟩], by simp, by simp, by norm_num⟩
